import Mathlib

/-!
Verification of the authentication and
profile slice (backend controllers, middleware and the User model).

The embedding follows the TypeScript source:
* `User` mirrors the Mongoose UserSchema (backend models, documented in
  the database-schema file): name, email, password (select false), role,
  skills, experience, education, createdAt, updatedAt.
* `JsValue` models the loosely typed JSON request bodies; `truthy`
  mirrors JavaScript truthiness, which the update controller relies on.
* Mongoose casting and update validators are modelled by the `cast...`
  functions; `findByIdAndUpdate` is `updateUserProfile`, which bypasses
  the pre-save hooks (so `preSaveUpdatedAt` is only applied on the
  document-save path used by registration).
* express-validator chains from middleware/validators.ts are modelled as
  functions computing the list of recorded error messages; as in
  express-validator, recording an error does not stop the pipeline -
  a controller must read the result, and `updateUserProfile` never does.
-/

namespace Colbin

/-- The persisted User record, mirroring the Mongoose UserSchema fields.
`password` stores the bcrypt hash (schema option select false keeps it
out of query results by default). -/
structure User where
  uid : Nat
  name : String
  email : String
  password : String
  role : String
  skills : List String
  experience : Int
  education : String
  createdAt : Nat
  updatedAt : Nat
deriving Repr, DecidableEq

/-- The shape of a user as returned by queries with the default
projection: the schema marks password with select false, so the hash is
absent from every queried document and hence from every response. -/
structure PublicUser where
  uid : Nat
  name : String
  email : String
  role : String
  skills : List String
  experience : Int
  education : String
  createdAt : Nat
  updatedAt : Nat
deriving Repr, DecidableEq

/-- Default projection of a stored record (password excluded by
select false in the schema). -/
def toPublic (u : User) : PublicUser :=
  { uid := u.uid, name := u.name, email := u.email, role := u.role
  , skills := u.skills, experience := u.experience, education := u.education
  , createdAt := u.createdAt, updatedAt := u.updatedAt }

/-- All strings occurring in a serialized (projected) user document. -/
def publicStrings (u : PublicUser) : List String :=
  u.name :: u.email :: u.role :: u.education :: u.skills

/-- The store is the Users collection. -/
def findById (s : List User) (i : Nat) : Option User :=
  s.find? (fun u => u.uid == i)

def findByEmail (s : List User) (e : String) : Option User :=
  s.find? (fun u => u.email == e)

/-- Write-back of an updated document (matched by id). -/
def storeSet (s : List User) (u' : User) : List User :=
  s.map (fun u => if u.uid == u'.uid then u' else u)

/-- The pre-save hook of the UserSchema that refreshes updatedAt; Mongoose
runs document middleware on save only, not on findByIdAndUpdate. -/
def preSaveUpdatedAt (now : Nat) (u : User) : User :=
  { u with updatedAt := now }

/-! ## JSON values of request bodies -/

/-- A scalar element of a JSON array (the validator and cast behaviour
the claims exercise only distinguishes string and numeric elements). -/
inductive JsScalar where
  | sStr (s : String)
  | sNum (n : Int)
deriving Repr, DecidableEq

/-- Loosely typed JSON value of a request-body field; vUndef is an absent
field. -/
inductive JsValue where
  | vStr (s : String)
  | vNum (n : Int)
  | vArr (elems : List JsScalar)
  | vUndef
deriving Repr, DecidableEq

/-- JavaScript truthiness, as used by the guards in updateUserProfile
(empty string and 0 are falsy, any array is truthy). -/
def truthy : JsValue → Bool
  | .vStr s => !(s == "")
  | .vNum n => !(n == 0)
  | .vArr _ => true
  | .vUndef => false

def isSpaceChar (c : Char) : Bool :=
  c == ' ' || c == '\t' || c == '\n' || c == '\r'

def trimChars (l : List Char) : List Char :=
  ((l.dropWhile isSpaceChar).reverse.dropWhile isSpaceChar).reverse

/-- The trim sanitizer of express-validator / the trim setter of the
schema. -/
def jsTrim (s : String) : String :=
  String.mk (trimChars s.data)

def natOfDigits (l : List Char) : Nat :=
  l.foldl (fun a c => 10 * a + (c.toNat - 48)) 0

/-- Integer fragment of the JavaScript numeric cast of a string, used both
by the isNumeric validator and by the Mongoose Number cast (a string such
as not-a-number yields no value, i.e. a CastError). -/
def strToInt (s : String) : Option Int :=
  match s.data with
  | '-' :: rest =>
      if rest ≠ [] ∧ rest.all Char.isDigit then some (-(natOfDigits rest : Int)) else none
  | l =>
      if l ≠ [] ∧ l.all Char.isDigit then some ((natOfDigits l : Int)) else none

/-- String coercion applied by string validators to non-string values. -/
def jsToString : JsValue → String
  | .vStr s => s
  | .vNum n => toString n
  | .vArr _ => ""
  | .vUndef => ""

/-- Strings an array element can contribute. -/
def scalarStrings : JsScalar → List String
  | .sStr s => [s]
  | .sNum n => [toString n]

/-- All strings a request-body value can contribute to a stored document
or a response (raw, trimmed, and decimal renderings). -/
def jsStrings : JsValue → List String
  | .vStr s => [s, jsTrim s]
  | .vNum n => [toString n, jsTrim (toString n)]
  | .vArr elems => elems.flatMap scalarStrings
  | .vUndef => []

/-! ## Profile update: request body, validator, Mongoose casting -/

/-- The PUT /api/users/profile request body (each field optional). -/
structure UpdateBody where
  name : JsValue
  skills : JsValue
  experience : JsValue
  education : JsValue
deriving Repr, DecidableEq

/-- All strings derivable from an update request body. -/
def bodyStrings (b : UpdateBody) : List String :=
  jsStrings b.name ++ jsStrings b.skills ++ jsStrings b.experience ++ jsStrings b.education

/-- The update object built by updateUserProfile: name, skills and
education are included when truthy, experience when not undefined
(source: the updateFields construction in controllers/users.ts). -/
structure UpdateFields where
  name : Option JsValue
  skills : Option JsValue
  experience : Option JsValue
  education : Option JsValue
deriving Repr, DecidableEq

def buildUpdateFields (b : UpdateBody) : UpdateFields :=
  { name := if truthy b.name then some b.name else none
  , skills := if truthy b.skills then some b.skills else none
  , experience := if b.experience ≠ JsValue.vUndef then some b.experience else none
  , education := if truthy b.education then some b.education else none }

/-- Mongoose String cast (numbers stringify, arrays fail). -/
def castString : JsValue → Option String
  | .vStr s => some s
  | .vNum n => some (toString n)
  | _ => none

/-- Mongoose cast plus the schema setter and update validator for name:
the trim setter applies, and with runValidators the maxlength 50 check
runs on updates too. -/
def castName (v : JsValue) : Option String :=
  (castString v).bind (fun s =>
    let t := jsTrim s
    if t.length ≤ 50 then some t else none)

/-- Mongoose Number cast: numbers pass, numeric strings are parsed, and
anything else raises a CastError (modelled as none). -/
def castNumber : JsValue → Option Int
  | .vNum n => some n
  | .vStr s => strToInt s
  | _ => none

def castScalar : JsScalar → String
  | .sStr s => s
  | .sNum n => toString n

/-- Mongoose cast for the skills field of type list of String: every
array element is cast to a string; a lone scalar is wrapped. -/
def castElemsJs : JsValue → Option (List String)
  | .vStr s => some [s]
  | .vNum n => some [toString n]
  | .vArr elems => some (elems.map castScalar)
  | .vUndef => none

/-- Lift a field cast over an optional field. -/
def castOpt {α : Type} (cast : JsValue → Option α) : Option JsValue → Option (Option α)
  | none => some none
  | some v => (cast v).map some

/-- The casted update object; none in a component means the field is not
part of the update. -/
structure CastedFields where
  name : Option String
  skills : Option (List String)
  experience : Option Int
  education : Option String
deriving Repr, DecidableEq

/-- Casting of the whole update object; Mongoose casts and validates the
update before executing the query, so any failure aborts the operation
(a rejected promise, caught by the controller as a server error). -/
def castUpdateFields (f : UpdateFields) : Option CastedFields :=
  (castOpt castName f.name).bind fun n =>
    (castOpt castElemsJs f.skills).bind fun sk =>
      (castOpt castNumber f.experience).bind fun e =>
        (castOpt castString f.education).map fun ed =>
          { name := n, skills := sk, experience := e, education := ed }

/-- Applying the casted dollar-set update to a document. Note that
findByIdAndUpdate runs no document pre-save middleware, so createdAt and
updatedAt are untouched. -/
def applyCasted (u : User) (c : CastedFields) : User :=
  { u with
      name := c.name.getD u.name
    , skills := c.skills.getD u.skills
    , experience := c.experience.getD u.experience
    , education := c.education.getD u.education }

/-- The profileUpdateValidator chain from middleware/validators.ts: each
rule is optional and records a message on failure. The chain only
records; it never terminates the request. -/
def profileUpdateValidatorErrors (b : UpdateBody) : List String :=
  (match b.name with
   | JsValue.vUndef => []
   | v => if 50 < (jsTrim (jsToString v)).length
          then ["Name cannot be more than 50 characters"] else []) ++
  (match b.skills with
   | JsValue.vUndef => []
   | JsValue.vArr _ => []
   | _ => ["Skills must be an array"]) ++
  (match b.experience with
   | JsValue.vUndef => []
   | JsValue.vNum _ => []
   | JsValue.vStr s => if (strToInt s).isSome then [] else ["Experience must be a number"]
   | JsValue.vArr _ => ["Experience must be a number"]) ++
  (match b.education with
   | JsValue.vUndef => []
   | JsValue.vStr _ => []
   | _ => ["Education must be a string"])

/-! ## Responses and controllers -/

/-- A JWT: payload carries the user id and the expiry instant; the
signature is computed by the signing function from the secret and the
payload. -/
structure Token where
  tokenId : Nat
  expiresAt : Nat
  sig : Nat
deriving Repr, DecidableEq

/-- HTTP responses of this API: success with a user document, success
with a token, a single error message, or a field-level error array. -/
inductive Resp where
  | okUser (code : Nat) (u : PublicUser)
  | okToken (code : Nat) (t : Token)
  | fail (code : Nat) (msg : String)
  | failFields (code : Nat) (msgs : List String)
deriving Repr, DecidableEq

/-- Strings present in a serialized response body (tokens serialize the
numeric payload and signature only). -/
def respStrings : Resp → List String
  | .okUser _ u => publicStrings u
  | .okToken _ _ => []
  | .fail _ m => [m]
  | .failFields _ msgs => msgs

/-- updateUserProfile from controllers/users.ts: it reads the body
directly (never consulting the recorded validator errors), builds
updateFields by truthiness, and calls findByIdAndUpdate with
runValidators. A null req user makes the id read throw, and a cast or
validation failure rejects; both are caught as 500 Server error. -/
def updateUserProfile (s : List User) (reqUser : Option PublicUser) (b : UpdateBody) :
    Resp × List User :=
  match reqUser with
  | none => (Resp.fail 500 "Server error", s)
  | some ru =>
    match castUpdateFields (buildUpdateFields b) with
    | none => (Resp.fail 500 "Server error", s)
    | some c =>
      match findById s ru.uid with
      | none => (Resp.fail 404 "User not found", s)
      | some u => (Resp.okUser 200 (toPublic (applyCasted u c)), storeSet s (applyCasted u c))

/-- getUserProfile from controllers/users.ts: re-fetches the user by the
id attached by the guard; a null req user makes the id read throw,
caught as 500. -/
def getUserProfile (s : List User) (reqUser : Option PublicUser) : Resp :=
  match reqUser with
  | none => Resp.fail 500 "Server error"
  | some ru =>
    match findById s ru.uid with
    | none => Resp.fail 404 "User not found"
    | some u => Resp.okUser 200 (toPublic u)

/-! ## Token service and access guard -/

/-- Process-wide configuration and the external primitives used at their
interface boundary: the email validator of the validation library, the
bcrypt comparison and hashing primitives, the JWT signing function, the
signing secret and the configured token time to live. -/
structure Ctx where
  isEmail : String → Bool
  bcompare : String → String → Bool
  hashPw : String → String
  mkSig : Nat → Nat → Nat → Nat
  secret : Nat
  ttl : Nat

inductive VerifyResult where
  | valid (uid : Nat)
  | invalid
deriving Repr, DecidableEq

/-- generateToken (getSignedJwtToken): sign the user id with expiry
now plus the configured ttl. -/
def generateToken (ctx : Ctx) (i now : Nat) : Token :=
  ⟨i, now + ctx.ttl, ctx.mkSig ctx.secret i (now + ctx.ttl)⟩

/-- jwt.verify at the interface boundary: accept exactly when the
signature matches the recomputed one and the expiry has not passed;
malformed, badly signed and expired tokens all throw the same way. -/
def verifyToken (ctx : Ctx) (t : Token) (now : Nat) : VerifyResult :=
  if t.sig = ctx.mkSig ctx.secret t.tokenId t.expiresAt then
    if now < t.expiresAt then VerifyResult.valid t.tokenId else VerifyResult.invalid
  else VerifyResult.invalid

/-- The Authorization header as the guard sees it: absent, present
without the Bearer scheme, Bearer with no token part, or Bearer with a
token. -/
inductive AuthHeaderVal where
  | noBearerScheme (s : String)
  | bearerOnly
  | bearerToken (t : Token)
deriving Repr, DecidableEq

inductive ProtectResult where
  | reject401 (msg : String)
  | proceed (reqUser : Option PublicUser)
deriving Repr, DecidableEq

/-- The protect middleware from middleware/auth.ts: 401 when no token
can be extracted or verification throws; otherwise it assigns req.user
to the result of the id lookup - possibly null - and calls next()
unconditionally. -/
def protect (ctx : Ctx) (now : Nat) (s : List User) (header : Option AuthHeaderVal) :
    ProtectResult :=
  match header with
  | none => ProtectResult.reject401 "Not authorized to access this route"
  | some (AuthHeaderVal.noBearerScheme _) =>
      ProtectResult.reject401 "Not authorized to access this route"
  | some AuthHeaderVal.bearerOnly =>
      ProtectResult.reject401 "Not authorized to access this route"
  | some (AuthHeaderVal.bearerToken t) =>
    match verifyToken ctx t now with
    | VerifyResult.invalid => ProtectResult.reject401 "Not authorized to access this route"
    | VerifyResult.valid uid => ProtectResult.proceed ((findById s uid).map toPublic)

/-! ## Auth flow -/

/-- The registerValidator chain from middleware/validators.ts: name must
be non-empty and at most 50 characters after the trim sanitizer, email
must satisfy the email check, password must have at least 6 characters. -/
def registerValidatorErrors (isEmail : String → Bool) (name email password : String) :
    List String :=
  (if name = "" then ["Name is required"] else []) ++
  (if 50 < (jsTrim name).length then ["Name cannot be more than 50 characters"] else []) ++
  (if isEmail email then [] else ["Please include a valid email"]) ++
  (if password.length < 6 then ["Password must be at least 6 characters"] else [])

/-- Modelled from the spec: the register controller (backend
controllers/auth.ts) is not under src. Per the spec and the repository
API documentation it checks the recorded validation errors (400 with the
error array), rejects an email that already exists exactly (400 User
already exists), and otherwise persists a new record - role user, empty
skills, experience 0, empty education, bcrypt-hashed password, the
pre-save hook stamping updatedAt - and answers 201 with a fresh token.
`newUserRecord` is the record persisted by a successful registration. -/
def newUserRecord (ctx : Ctx) (now freshId : Nat) (name email password : String) : User :=
  preSaveUpdatedAt now
    { uid := freshId, name := jsTrim name, email := email
    , password := ctx.hashPw password, role := "user", skills := []
    , experience := 0, education := "", createdAt := now, updatedAt := now }

/-- Modelled from the spec: see `newUserRecord`. The register pipeline
checks the recorded validator errors first, then the duplicate email,
then persists and issues a token. -/
def registerUser (ctx : Ctx) (now freshId : Nat) (s : List User)
    (name email password : String) : Resp × List User :=
  if registerValidatorErrors ctx.isEmail name email password = [] then
    match findByEmail s email with
    | some _ => (Resp.fail 400 "User already exists", s)
    | none =>
      (Resp.okToken 201 (generateToken ctx freshId now),
       s ++ [newUserRecord ctx now freshId name email password])
  else (Resp.failFields 400 (registerValidatorErrors ctx.isEmail name email password), s)

/-- Modelled from the spec: the login controller (backend
controllers/auth.ts) is not under src. Per the spec and the repository
API documentation - whose only documented login failures are 401 and
500 - it looks the record up by exact email, compares the password with
the bcrypt comparison primitive, answers 200 with a token on success and
the one generic 401 Invalid credentials otherwise, never touching the
store. -/
def loginUser (ctx : Ctx) (now : Nat) (s : List User) (email password : String) :
    Resp × List User :=
  match findByEmail s email with
  | none => (Resp.fail 401 "Invalid credentials", s)
  | some u =>
    if ctx.bcompare password u.password then
      (Resp.okToken 200 (generateToken ctx u.uid now), s)
    else (Resp.fail 401 "Invalid credentials", s)

/-- Modelled from the spec: the getMe controller (backend
controllers/auth.ts) is not under src. Per the spec, GET /api/auth/me
returns the guard-resolved current user; a null req user makes the field
read throw, caught as 500. -/
def getMe (reqUser : Option PublicUser) : Resp :=
  match reqUser with
  | none => Resp.fail 500 "Server error"
  | some ru => Resp.okUser 200 ru

/-! ## The external interface as a whole -/

/-- One request to the external interface. Protected operations carry
the Authorization header; update also carries its body. -/
inductive Op where
  | opRegister (name email password : String)
  | opLogin (email password : String)
  | opGetMe (header : Option AuthHeaderVal)
  | opGetProfile (header : Option AuthHeaderVal)
  | opUpdateProfile (header : Option AuthHeaderVal) (body : UpdateBody)
deriving Repr, DecidableEq

/-- Dispatch of one request through the route pipelines of
routes/auth.ts and routes/users.ts (guard first on protected routes). -/
def runOp (ctx : Ctx) (now freshId : Nat) (s : List User) : Op → Resp × List User
  | Op.opRegister n e p => registerUser ctx now freshId s n e p
  | Op.opLogin e p => loginUser ctx now s e p
  | Op.opGetMe h =>
    match protect ctx now s h with
    | ProtectResult.reject401 m => (Resp.fail 401 m, s)
    | ProtectResult.proceed ru => (getMe ru, s)
  | Op.opGetProfile h =>
    match protect ctx now s h with
    | ProtectResult.reject401 m => (Resp.fail 401 m, s)
    | ProtectResult.proceed ru => (getUserProfile s ru, s)
  | Op.opUpdateProfile h b =>
    match protect ctx now s h with
    | ProtectResult.reject401 m => (Resp.fail 401 m, s)
    | ProtectResult.proceed ru => updateUserProfile s ru b

/-- The fixed error messages this interface can emit. -/
def fixedMessages : List String :=
  [ "Not authorized to access this route", "Server error", "User not found"
  , "Invalid credentials", "User already exists", "Name is required"
  , "Name cannot be more than 50 characters", "Please include a valid email"
  , "Password must be at least 6 characters", "Skills must be an array"
  , "Experience must be a number", "Education must be a string" ]

/-- No two records share an email. -/
def emailsUnique (s : List User) : Prop :=
  (s.map User.email).Nodup

/-- The store assigns each record a distinct id. -/
def uidsUnique (s : List User) : Prop :=
  (s.map User.uid).Nodup

/-- States of the Users collection reachable from the empty store by the
exposed operations; the store assigns a fresh id at each creation. -/
inductive Reachable : List User → Prop where
  | empty : Reachable []
  | stepRegister (ctx : Ctx) (now freshId : Nat) (name email password : String)
      (s : List User) (h : Reachable s) (hfresh : findById s freshId = none) :
      Reachable (registerUser ctx now freshId s name email password).snd
  | stepLogin (ctx : Ctx) (now : Nat) (email password : String)
      (s : List User) (h : Reachable s) :
      Reachable (loginUser ctx now s email password).snd
  | stepUpdate (reqUser : Option PublicUser) (b : UpdateBody)
      (s : List User) (h : Reachable s) :
      Reachable (updateUserProfile s reqUser b).snd

/-! ## Concrete instances for witnesses and counterexamples -/

/-- A concrete instantiation of the external primitives: a minimal email
shape check, a tagging hash with the matching comparison, and a simple
keyed signing function. -/
def ctx0 : Ctx :=
  { isEmail := fun s => s.data.contains '@'
  , bcompare := fun p h => h == p ++ "#h"
  , hashPw := fun p => p ++ "#h"
  , mkSig := fun k i e => k + 31 * i + 17 * e
  , secret := 7
  , ttl := 100 }

def annUser : User :=
  { uid := 1, name := "Ann", email := "ann@x.com", password := "secret1#h"
  , role := "user", skills := ["Go"], experience := 2, education := "BSc"
  , createdAt := 10, updatedAt := 10 }

def store1 : List User := [annUser]

def badBody : UpdateBody :=
  ⟨JsValue.vUndef, JsValue.vUndef, JsValue.vStr "not-a-number", JsValue.vUndef⟩

def body9 : UpdateBody :=
  ⟨JsValue.vUndef, JsValue.vArr [JsScalar.sNum 1], JsValue.vNum (-5), JsValue.vUndef⟩

def ann9 : User := { annUser with experience := -5, skills := ["1"] }

def expBody (n : Int) : UpdateBody :=
  ⟨JsValue.vUndef, JsValue.vUndef, JsValue.vNum n, JsValue.vUndef⟩

def c10Body : UpdateBody :=
  ⟨JsValue.vStr "", JsValue.vArr [], JsValue.vNum 0, JsValue.vStr ""⟩

def name51 : String := String.mk ('a' :: List.replicate 51 ' ')

example : truthy (JsValue.vArr []) = true := rfl

example : jsTrim " ab " = "ab" := by decide

example : strToInt "not-a-number" = none := by decide

example : strToInt "-5" = some (-5) := by decide

example :
    updateUserProfile store1 (some (toPublic annUser)) badBody
      = (Resp.fail 500 "Server error", store1) := by decide

example :
    updateUserProfile store1 (some (toPublic annUser)) body9
      = (Resp.okUser 200 (toPublic ann9), [ann9]) := by decide

example : profileUpdateValidatorErrors badBody = ["Experience must be a number"] := by decide

example : registerValidatorErrors ctx0.isEmail name51 "ann@x.com" "secret1" = [] := by decide

example : 50 < name51.length := by decide

example :
    (registerUser ctx0 0 5 [] name51 "ann@x.com" "secret1").fst
      = Resp.okToken 201 (generateToken ctx0 5 0) := by decide

/-! ## Helper lemmas about the store operations -/

theorem findById_mem {s : List User} {i : Nat} {u : User}
    (h : findById s i = some u) : u ∈ s :=
  List.mem_of_find?_eq_some h

theorem findById_not_mem {s : List User} {i : Nat}
    (h : findById s i = none) : i ∉ s.map User.uid := by
  intro hmem
  rcases List.mem_map.mp hmem with ⟨u, hu, hui⟩
  have hne := List.find?_eq_none.mp h u hu
  simp [hui] at hne

theorem findByEmail_not_mem {s : List User} {e : String}
    (h : findByEmail s e = none) : e ∉ s.map User.email := by
  intro hmem
  rcases List.mem_map.mp hmem with ⟨u, hu, hue⟩
  have hne := List.find?_eq_none.mp h u hu
  simp [hue] at hne

theorem storeSet_map_uid (s : List User) (u' : User) :
    (storeSet s u').map User.uid = s.map User.uid := by
  unfold storeSet
  rw [List.map_map]
  apply List.map_congr_left
  intro v hv
  simp only [Function.comp_apply]
  split
  · next h =>
    have hh : v.uid = u'.uid := by simpa using h
    exact hh.symm
  · rfl

theorem storeSet_map_email {s : List User} {u' : User}
    (hinj : ∀ v ∈ s, v.uid = u'.uid → v.email = u'.email) :
    (storeSet s u').map User.email = s.map User.email := by
  unfold storeSet
  rw [List.map_map]
  apply List.map_congr_left
  intro v hv
  simp only [Function.comp_apply]
  split
  · next h =>
    have hh : v.uid = u'.uid := by simpa using h
    exact (hinj v hv hh).symm
  · rfl

theorem loginUser_snd (ctx : Ctx) (now : Nat) (s : List User) (email password : String) :
    (loginUser ctx now s email password).snd = s := by
  rcases hf : findByEmail s email with _ | u
  · simp [loginUser, hf]
  · by_cases hb : ctx.bcompare password u.password <;> simp [loginUser, hf, hb]

theorem updateUserProfile_snd_maps (s : List User) (ru : Option PublicUser) (b : UpdateBody)
    (hu : uidsUnique s) :
    (updateUserProfile s ru b).snd.map User.uid = s.map User.uid ∧
    (updateUserProfile s ru b).snd.map User.email = s.map User.email := by
  rcases ru with _ | r
  · simp [updateUserProfile]
  · rcases hc : castUpdateFields (buildUpdateFields b) with _ | c
    · simp [updateUserProfile, hc]
    · rcases hf : findById s r.uid with _ | u
      · simp [updateUserProfile, hc, hf]
      · constructor
        · simp only [updateUserProfile, hc, hf]
          exact storeSet_map_uid s (applyCasted u c)
        · simp only [updateUserProfile, hc, hf]
          apply storeSet_map_email
          intro v hv hveq
          have hmem := findById_mem hf
          have hvu : v = u := List.inj_on_of_nodup_map hu hv hmem hveq
          rw [hvu]
          rfl

theorem registerUser_snd (ctx : Ctx) (now freshId : Nat) (s : List User)
    (name email password : String) :
    (registerUser ctx now freshId s name email password).snd = s ∨
    (findByEmail s email = none ∧
     (registerUser ctx now freshId s name email password).snd
       = s ++ [newUserRecord ctx now freshId name email password]) := by
  by_cases hv : registerValidatorErrors ctx.isEmail name email password = []
  · rcases hf : findByEmail s email with _ | u
    · right
      exact ⟨rfl, by simp [registerUser, hv, hf]⟩
    · left
      simp [registerUser, hv, hf]
  · left
    simp [registerUser, hv]

/-- Uid and email uniqueness are invariants of every reachable store. -/
theorem reachable_unique {s : List User} (h : Reachable s) :
    uidsUnique s ∧ emailsUnique s := by
  induction h with
  | empty => exact ⟨List.nodup_nil, List.nodup_nil⟩
  | stepRegister ctx now freshId name email password s hr hfresh ih =>
    rcases registerUser_snd ctx now freshId s name email password with heq | ⟨hmail, heq⟩
    · rw [heq]; exact ih
    · rw [heq]
      obtain ⟨ihu, ihe⟩ := ih
      constructor
      · unfold uidsUnique at ihu ⊢
        rw [List.map_append, List.nodup_append]
        refine ⟨ihu, List.nodup_singleton _, ?_⟩
        intro a ha hb
        simp only [List.map_cons, List.map_nil, List.mem_singleton] at hb
        subst hb
        exact findById_not_mem hfresh ha
      · unfold emailsUnique at ihe ⊢
        rw [List.map_append, List.nodup_append]
        refine ⟨ihe, List.nodup_singleton _, ?_⟩
        intro a ha hb
        simp only [List.map_cons, List.map_nil, List.mem_singleton] at hb
        subst hb
        exact findByEmail_not_mem hmail ha
  | stepLogin ctx now email password s hr ih =>
    rw [loginUser_snd]; exact ih
  | stepUpdate ru b s hr ih =>
    obtain ⟨ihu, ihe⟩ := ih
    obtain ⟨h1, h2⟩ := updateUserProfile_snd_maps s ru b ihu
    constructor
    · unfold uidsUnique at ihu ⊢
      rw [h1]; exact ihu
    · unfold emailsUnique at ihe ⊢
      rw [h2]; exact ihe

/-! ## Helper lemmas tracing response strings to their sources -/

theorem not_mem_single_of_fixed {p m : String} (hfixed : p ∉ fixedMessages)
    (hm : m ∈ fixedMessages) : p ∉ [m] := by
  intro hp
  simp only [List.mem_singleton] at hp
  exact hfixed (hp ▸ hm)

theorem registerValidatorErrors_sub_fixed (isEmail : String → Bool) (n e pw : String) :
    ∀ x ∈ registerValidatorErrors isEmail n e pw, x ∈ fixedMessages := by
  intro x hx
  unfold registerValidatorErrors at hx
  split_ifs at hx <;> simp_all [fixedMessages] <;> tauto

theorem mem_castName {v : JsValue} {t : String} (h : castName v = some t) :
    t ∈ jsStrings v := by
  rcases v with s | n | elems | _ <;>
    simp only [castName, castString, Option.some_bind, Option.none_bind] at h
  · split at h
    · rw [Option.some_inj] at h
      simp [jsStrings, ← h]
    · exact absurd h (by simp)
  · split at h
    · rw [Option.some_inj] at h
      simp [jsStrings, ← h]
    · exact absurd h (by simp)
  · exact absurd h (by simp)
  · exact absurd h (by simp)

theorem mem_castString {v : JsValue} {t : String} (h : castString v = some t) :
    t ∈ jsStrings v := by
  rcases v with s | n | elems | _ <;> simp only [castString] at h
  · rw [Option.some_inj] at h
    simp [jsStrings, ← h]
  · rw [Option.some_inj] at h
    simp [jsStrings, ← h]
  · exact absurd h (by simp)
  · exact absurd h (by simp)

theorem mem_castElemsJs {v : JsValue} {l : List String} {x : String}
    (h : castElemsJs v = some l) (hx : x ∈ l) : x ∈ jsStrings v := by
  rcases v with s | n | elems | _ <;> simp only [castElemsJs] at h
  · rw [Option.some_inj] at h
    rw [← h] at hx
    simp only [List.mem_singleton] at hx
    simp [jsStrings, hx]
  · rw [Option.some_inj] at h
    rw [← h] at hx
    simp only [List.mem_singleton] at hx
    simp [jsStrings, hx]
  · rw [Option.some_inj] at h
    rw [← h] at hx
    rcases List.mem_map.mp hx with ⟨el, hel, helx⟩
    simp only [jsStrings, List.mem_flatMap]
    refine ⟨el, hel, ?_⟩
    rcases el with es | en <;> simp [castScalar, scalarStrings] at helx ⊢ <;> simp [helx]
  · exact absurd h (by simp)

theorem castOpt_eq_some_some {α : Type} {cast : JsValue → Option α} {o : Option JsValue}
    {t : α} (h : castOpt cast o = some (some t)) : ∃ v, o = some v ∧ cast v = some t := by
  rcases o with _ | v
  · simp [castOpt] at h
  · refine ⟨v, rfl, ?_⟩
    simp only [castOpt, Option.map_eq_some'] at h
    rcases h with ⟨a, ha, hat⟩
    rw [Option.some_inj] at hat
    rw [ha, hat]

theorem buildUpdateFields_name_some {b : UpdateBody} {v : JsValue}
    (h : (buildUpdateFields b).name = some v) : v = b.name := by
  by_cases ht : truthy b.name
  · simp [buildUpdateFields, ht] at h
    exact h.symm
  · simp [buildUpdateFields, ht] at h

theorem buildUpdateFields_skills_some {b : UpdateBody} {v : JsValue}
    (h : (buildUpdateFields b).skills = some v) : v = b.skills := by
  by_cases ht : truthy b.skills
  · simp [buildUpdateFields, ht] at h
    exact h.symm
  · simp [buildUpdateFields, ht] at h

theorem buildUpdateFields_education_some {b : UpdateBody} {v : JsValue}
    (h : (buildUpdateFields b).education = some v) : v = b.education := by
  by_cases ht : truthy b.education
  · simp [buildUpdateFields, ht] at h
    exact h.symm
  · simp [buildUpdateFields, ht] at h

theorem castUpdateFields_inv {f : UpdateFields} {c : CastedFields}
    (h : castUpdateFields f = some c) :
    castOpt castName f.name = some c.name ∧
    castOpt castElemsJs f.skills = some c.skills ∧
    castOpt castString f.education = some c.education := by
  unfold castUpdateFields at h
  simp only [Option.bind_eq_some, Option.map_eq_some'] at h
  rcases h with ⟨n, hn, sk, hsk, e, he, ed, hed, hc⟩
  rw [← hc]
  exact ⟨hn, hsk, hed⟩

/-- Every string of the serialized result of an update traces back either
to the previously stored document or to the request body. -/
theorem mem_applyCasted {b : UpdateBody} {c : CastedFields} {u : User} {p : String}
    (hc : castUpdateFields (buildUpdateFields b) = some c)
    (hp : p ∈ publicStrings (toPublic (applyCasted u c))) :
    p ∈ publicStrings (toPublic u) ∨ p ∈ bodyStrings b := by
  obtain ⟨hn, hsk, hed⟩ := castUpdateFields_inv hc
  simp only [publicStrings, toPublic, applyCasted, List.mem_cons] at hp
  rcases hp with hp | hp | hp | hp | hp
  · rcases hcn : c.name with _ | t
    · rw [hcn] at hp
      left; simp [publicStrings, toPublic, hp]
    · rw [hcn] at hn hp
      rcases castOpt_eq_some_some hn with ⟨v, hv, hcast⟩
      rw [buildUpdateFields_name_some hv] at hcast
      right
      simp only [bodyStrings, List.mem_append]
      exact Or.inl (Or.inl (Or.inl (hp ▸ mem_castName hcast)))
  · left; simp [publicStrings, toPublic, hp]
  · left; simp [publicStrings, toPublic, hp]
  · rcases hce : c.education with _ | t
    · rw [hce] at hp
      left; simp [publicStrings, toPublic, hp]
    · rw [hce] at hed hp
      rcases castOpt_eq_some_some hed with ⟨v, hv, hcast⟩
      rw [buildUpdateFields_education_some hv] at hcast
      right
      simp only [bodyStrings, List.mem_append]
      exact Or.inr (hp ▸ mem_castString hcast)
  · rcases hcs : c.skills with _ | l
    · rw [hcs] at hp
      left; simp [publicStrings, toPublic]
      right; right; right; right; exact hp
    · rw [hcs] at hsk hp
      rcases castOpt_eq_some_some hsk with ⟨v, hv, hcast⟩
      rw [buildUpdateFields_skills_some hv] at hcast
      right
      simp only [bodyStrings, List.mem_append]
      exact Or.inl (Or.inl (Or.inr (mem_castElemsJs hcast hp)))

/-- The guard either rejects with its fixed message, or proceeds with a
null user, or proceeds with a user projected from the store. -/
theorem protect_result (ctx : Ctx) (now : Nat) (s : List User)
    (header : Option AuthHeaderVal) :
    protect ctx now s header
        = ProtectResult.reject401 "Not authorized to access this route" ∨
    protect ctx now s header = ProtectResult.proceed none ∨
    (∃ u, u ∈ s ∧ protect ctx now s header = ProtectResult.proceed (some (toPublic u))) := by
  rcases header with _ | hv
  · left; rfl
  · rcases hv with hs | _ | t
    · left; rfl
    · left; rfl
    · rcases hvr : verifyToken ctx t now with uid | _
      · rcases hf : findById s uid with _ | u
        · right; left
          simp [protect, hvr, hf]
        · right; right
          exact ⟨u, findById_mem hf, by simp [protect, hvr, hf]⟩
      · left
        simp [protect, hvr]

/-! ## Claim theorems -/

/-- C6: the token service round trip. A token issued for an id verifies
back to that id immediately (the configured ttl being positive); any
token whose signature differs from the recomputed signature fails
verification; and any token whose expiry instant lies in the past fails
verification, with the uniform invalid outcome in both failure cases. -/
theorem c6_token_roundtrip (ctx : Ctx) (i now : Nat) (h : 0 < ctx.ttl) :
    verifyToken ctx (generateToken ctx i now) now = VerifyResult.valid i ∧
    (∀ t : Token, t.sig ≠ ctx.mkSig ctx.secret t.tokenId t.expiresAt →
      verifyToken ctx t now = VerifyResult.invalid) ∧
    (∀ t : Token, t.expiresAt < now → verifyToken ctx t now = VerifyResult.invalid) := by
  refine ⟨?_, ?_, ?_⟩
  · have hlt : now < now + ctx.ttl := Nat.lt_add_of_pos_right h
    simp [verifyToken, generateToken, hlt]
  · intro t ht
    simp [verifyToken, ht]
  · intro t ht
    have hnot : ¬ now < t.expiresAt := by omega
    unfold verifyToken
    split
    · simp [hnot]
    · rfl

theorem c6_token_roundtrip_witness :
    verifyToken ctx0 (generateToken ctx0 1 0) 0 = VerifyResult.valid 1 ∧
    verifyToken ctx0 ⟨1, 100, 0⟩ 0 = VerifyResult.invalid ∧
    verifyToken ctx0 ⟨1, 3, ctx0.mkSig ctx0.secret 1 3⟩ 5 = VerifyResult.invalid :=
  ⟨(c6_token_roundtrip ctx0 1 0 (by decide)).1,
   (c6_token_roundtrip ctx0 1 0 (by decide)).2.1 ⟨1, 100, 0⟩ (by decide),
   (c6_token_roundtrip ctx0 1 5 (by decide)).2.2 ⟨1, 3, ctx0.mkSig ctx0.secret 1 3⟩
     (by decide)⟩

/-- C1 (counterexample): a correctly signed, unexpired token for user id
1 against an empty store - the user no longer exists - is not rejected
by the protect middleware: it proceeds to the downstream handler with a
null req user instead of answering 401. -/
theorem c1_counterexample :
    verifyToken ctx0 (generateToken ctx0 1 0) 0 = VerifyResult.valid 1 ∧
    findById [] 1 = none ∧
    protect ctx0 0 [] (some (AuthHeaderVal.bearerToken (generateToken ctx0 1 0)))
      = ProtectResult.proceed none ∧
    ProtectResult.proceed none
      ≠ ProtectResult.reject401 "Not authorized to access this route" := by
  decide

/-- C1 (amended): for every request carrying a token that verifies to a
user id with no matching record, protect attaches a null user and
invokes the downstream handler; the profile read then fails downstream
with 500 Server error rather than 401. -/
theorem c1_deleted_user_not_rejected (ctx : Ctx) (now : Nat) (s : List User)
    (t : Token) (uid : Nat)
    (hv : verifyToken ctx t now = VerifyResult.valid uid)
    (hmiss : findById s uid = none) :
    protect ctx now s (some (AuthHeaderVal.bearerToken t)) = ProtectResult.proceed none ∧
    getUserProfile s none = Resp.fail 500 "Server error" := by
  constructor
  · simp [protect, hv, hmiss]
  · rfl

theorem c1_deleted_user_not_rejected_witness :
    protect ctx0 0 [] (some (AuthHeaderVal.bearerToken (generateToken ctx0 1 0)))
      = ProtectResult.proceed none ∧
    getUserProfile [] none = Resp.fail 500 "Server error" :=
  c1_deleted_user_not_rejected ctx0 0 [] (generateToken ctx0 1 0) 1 (by decide) (by decide)

/-- C2 (code bug): an authenticated profile update whose body carries the
non-numeric experience value not-a-number. The validator chain records
exactly the documented message, but updateUserProfile never reads it, so
the value reaches the store layer, whose cast failure is caught as 500
Server error - not the documented 400 validation failure. The stored
record is unchanged. -/
theorem c2_nonnumeric_experience_server_error :
    profileUpdateValidatorErrors badBody = ["Experience must be a number"] ∧
    updateUserProfile store1 (some (toPublic annUser)) badBody
      = (Resp.fail 500 "Server error", store1) := by
  decide

/-- C3 (code bug): a profile update whose patch is exactly experience 5
sets experience to 5 and leaves name, skills, education and createdAt
unchanged - but updatedAt is also unchanged, because findByIdAndUpdate
bypasses the pre-save hook that stamps it, contrary to the documented
behaviour that updatedAt advances on every mutation. -/
theorem c3_experience_update_frame (s : List User) (u : User)
    (h : findById s u.uid = some u) :
    updateUserProfile s (some (toPublic u)) (expBody 5)
      = (Resp.okUser 200 (toPublic { u with experience := 5 }),
         storeSet s { u with experience := 5 }) ∧
    ({ u with experience := 5 } : User).experience = 5 ∧
    ({ u with experience := 5 } : User).name = u.name ∧
    ({ u with experience := 5 } : User).skills = u.skills ∧
    ({ u with experience := 5 } : User).education = u.education ∧
    ({ u with experience := 5 } : User).createdAt = u.createdAt ∧
    ({ u with experience := 5 } : User).updatedAt = u.updatedAt := by
  refine ⟨?_, rfl, rfl, rfl, rfl, rfl, rfl⟩
  have hid : (toPublic u).uid = u.uid := rfl
  simp [updateUserProfile, expBody, buildUpdateFields, castUpdateFields, castOpt,
        castNumber, truthy, hid, h, applyCasted]

/-- C4: no response of the external interface contains a given secret
string - in particular the stored password hash or the submitted
plaintext - provided that string does not collide with any non-secret
field of a stored document, any fixed error message, or any string
derivable from an update request body. Queries return documents under
the default projection, which excludes the password (select false), and
token responses serialize no user field, so the secret can only appear
through such a collision. -/
theorem c4_no_password_in_responses (ctx : Ctx) (now freshId : Nat) (s : List User)
    (op : Op) (p : String)
    (hstore : ∀ u ∈ s, p ∉ publicStrings (toPublic u))
    (hfixed : p ∉ fixedMessages)
    (hbody : ∀ h b, op = Op.opUpdateProfile h b → p ∉ bodyStrings b) :
    p ∉ respStrings (runOp ctx now freshId s op).fst := by
  cases op with
  | opRegister n e pw =>
    by_cases hv : registerValidatorErrors ctx.isEmail n e pw = []
    · rcases hf : findByEmail s e with _ | u
      · have hr : registerUser ctx now freshId s n e pw
            = (Resp.okToken 201 (generateToken ctx freshId now),
               s ++ [newUserRecord ctx now freshId n e pw]) := by
          simp [registerUser, hv, hf]
        simp only [runOp, hr]
        exact List.not_mem_nil p
      · have hr : registerUser ctx now freshId s n e pw
            = (Resp.fail 400 "User already exists", s) := by
          simp [registerUser, hv, hf]
        simp only [runOp, hr]
        exact not_mem_single_of_fixed hfixed (by simp [fixedMessages])
    · have hr : registerUser ctx now freshId s n e pw
          = (Resp.failFields 400 (registerValidatorErrors ctx.isEmail n e pw), s) := by
        simp [registerUser, hv]
      simp only [runOp, hr]
      intro hp
      exact hfixed (registerValidatorErrors_sub_fixed ctx.isEmail n e pw p hp)
  | opLogin e pw =>
    rcases hf : findByEmail s e with _ | u
    · have hr : loginUser ctx now s e pw = (Resp.fail 401 "Invalid credentials", s) := by
        simp [loginUser, hf]
      simp only [runOp, hr]
      exact not_mem_single_of_fixed hfixed (by simp [fixedMessages])
    · by_cases hb : ctx.bcompare pw u.password
      · have hr : loginUser ctx now s e pw
            = (Resp.okToken 200 (generateToken ctx u.uid now), s) := by
          simp [loginUser, hf, hb]
        simp only [runOp, hr]
        exact List.not_mem_nil p
      · have hr : loginUser ctx now s e pw = (Resp.fail 401 "Invalid credentials", s) := by
          simp [loginUser, hf, hb]
        simp only [runOp, hr]
        exact not_mem_single_of_fixed hfixed (by simp [fixedMessages])
  | opGetMe h =>
    rcases protect_result ctx now s h with hpr | hpr | ⟨u, hu, hpr⟩ <;>
      simp only [runOp] <;> rw [hpr]
    · exact not_mem_single_of_fixed hfixed (by simp [fixedMessages])
    · exact not_mem_single_of_fixed hfixed (by simp [fixedMessages])
    · exact hstore u hu
  | opGetProfile h =>
    rcases protect_result ctx now s h with hpr | hpr | ⟨u, hu, hpr⟩ <;>
      simp only [runOp] <;> rw [hpr]
    · exact not_mem_single_of_fixed hfixed (by simp [fixedMessages])
    · exact not_mem_single_of_fixed hfixed (by simp [fixedMessages])
    · dsimp only
      rcases hf : findById s (toPublic u).uid with _ | w
      · have hg : getUserProfile s (some (toPublic u)) = Resp.fail 404 "User not found" := by
          simp [getUserProfile, hf]
        rw [hg]
        exact not_mem_single_of_fixed hfixed (by simp [fixedMessages])
      · have hg : getUserProfile s (some (toPublic u)) = Resp.okUser 200 (toPublic w) := by
          simp [getUserProfile, hf]
        rw [hg]
        exact hstore w (findById_mem hf)
  | opUpdateProfile h b =>
    have hpb : p ∉ bodyStrings b := hbody h b rfl
    rcases protect_result ctx now s h with hpr | hpr | ⟨u, hu, hpr⟩ <;>
      simp only [runOp] <;> rw [hpr]
    · exact not_mem_single_of_fixed hfixed (by simp [fixedMessages])
    · exact not_mem_single_of_fixed hfixed (by simp [fixedMessages])
    · dsimp only
      rcases hc : castUpdateFields (buildUpdateFields b) with _ | c
      · have hup : updateUserProfile s (some (toPublic u)) b
            = (Resp.fail 500 "Server error", s) := by
          simp [updateUserProfile, hc]
        rw [hup]
        exact not_mem_single_of_fixed hfixed (by simp [fixedMessages])
      · rcases hf : findById s (toPublic u).uid with _ | w
        · have hup : updateUserProfile s (some (toPublic u)) b
              = (Resp.fail 404 "User not found", s) := by
            simp [updateUserProfile, hc, hf]
          rw [hup]
          exact not_mem_single_of_fixed hfixed (by simp [fixedMessages])
        · have hup : updateUserProfile s (some (toPublic u)) b
              = (Resp.okUser 200 (toPublic (applyCasted w c)),
                 storeSet s (applyCasted w c)) := by
            simp [updateUserProfile, hc, hf]
          rw [hup]
          intro hp
          rcases mem_applyCasted hc hp with hmem | hmem
          · exact hstore w (findById_mem hf) hmem
          · exact hpb hmem

theorem c4_no_password_in_responses_witness :
    ("secret1#h" : String)
        ∉ respStrings (runOp ctx0 0 9 store1
            (Op.opGetProfile (some (AuthHeaderVal.bearerToken (generateToken ctx0 1 0))))).fst :=
  c4_no_password_in_responses ctx0 0 9 store1
    (Op.opGetProfile (some (AuthHeaderVal.bearerToken (generateToken ctx0 1 0))))
    "secret1#h" (by decide) (by decide) (by intro h b hb; cases hb)

/-- C5: email uniqueness is an invariant of every store state reachable
by the exposed operations; and with valid inputs, a first registration
under a not-yet-used email succeeds with a 201 token while a second
registration under the exact same email fails with the duplicate
response. Registration, login and profile update controllers are
spec-modelled where absent from src; the duplicate check is exact string
equality, hence case-sensitive. -/
theorem c5_email_uniqueness (s : List User) (hs : Reachable s)
    (ctx : Ctx) (now freshId now2 freshId2 : Nat) (n e p n2 p2 : String)
    (hv1 : registerValidatorErrors ctx.isEmail n e p = [])
    (hv2 : registerValidatorErrors ctx.isEmail n2 e p2 = [])
    (hdup : findByEmail s e = none) :
    emailsUnique s ∧
    (registerUser ctx now freshId s n e p).fst
      = Resp.okToken 201 (generateToken ctx freshId now) ∧
    (registerUser ctx now2 freshId2 (registerUser ctx now freshId s n e p).snd n2 e p2).fst
      = Resp.fail 400 "User already exists" := by
  refine ⟨(reachable_unique hs).2, ?_, ?_⟩
  · simp [registerUser, hv1, hdup]
  · have hsnd : (registerUser ctx now freshId s n e p).snd
        = s ++ [newUserRecord ctx now freshId n e p] := by
      simp [registerUser, hv1, hdup]
    have hfind : findByEmail (s ++ [newUserRecord ctx now freshId n e p]) e
        = some (newUserRecord ctx now freshId n e p) := by
      unfold findByEmail at hdup ⊢
      rw [List.find?_append, hdup]
      simp [newUserRecord, preSaveUpdatedAt, List.find?]
    rw [hsnd]
    simp [registerUser, hv2, hfind]

theorem c5_email_uniqueness_witness :
    emailsUnique [] ∧
    (registerUser ctx0 0 1 [] "Ann" "ann@x.com" "secret1").fst
      = Resp.okToken 201 (generateToken ctx0 1 0) ∧
    (registerUser ctx0 2 2 (registerUser ctx0 0 1 [] "Ann" "ann@x.com" "secret1").snd
        "Bob" "ann@x.com" "secret2").fst = Resp.fail 400 "User already exists" :=
  c5_email_uniqueness [] Reachable.empty ctx0 0 1 2 2 "Ann" "ann@x.com" "secret1"
    "Bob" "secret2" (by decide) (by decide) (by decide)

/-- C7: a login with an unknown email and a login with a known email but
a failing password comparison both answer the identical generic 401
Invalid credentials response, and in both cases the store is returned
unchanged. -/
theorem c7_login_uniform_error (ctx : Ctx) (now : Nat) (s : List User)
    (email password : String) :
    (findByEmail s email = none →
      loginUser ctx now s email password = (Resp.fail 401 "Invalid credentials", s)) ∧
    (∀ u : User, findByEmail s email = some u →
      ctx.bcompare password u.password = false →
      loginUser ctx now s email password = (Resp.fail 401 "Invalid credentials", s)) := by
  constructor
  · intro h
    simp [loginUser, h]
  · intro u hu hb
    simp [loginUser, hu, hb]

theorem c7_login_uniform_error_witness :
    loginUser ctx0 0 store1 "bob@x.com" "secret1" = (Resp.fail 401 "Invalid credentials", store1) ∧
    loginUser ctx0 0 store1 "ann@x.com" "wrong" = (Resp.fail 401 "Invalid credentials", store1) :=
  ⟨(c7_login_uniform_error ctx0 0 store1 "bob@x.com" "secret1").1 (by decide),
   (c7_login_uniform_error ctx0 0 store1 "ann@x.com" "wrong").2 annUser (by decide) (by decide)⟩

/-- C10: the update controller treats present-but-falsy string fields as
absent - an empty-string name or education is dropped from the update
object and the stored field survives - while experience is compared
against undefined (so 0 is applied) and an empty skills array is truthy
(so skills is cleared). The last conjunct runs the full update with all
four such fields on an arbitrary stored user. -/
theorem c10_falsy_field_semantics (b : UpdateBody) (s : List User) (u : User)
    (h : findById s u.uid = some u) :
    (b.name = JsValue.vStr "" → (buildUpdateFields b).name = none) ∧
    (b.education = JsValue.vStr "" → (buildUpdateFields b).education = none) ∧
    (b.experience = JsValue.vNum 0 → (buildUpdateFields b).experience = some (JsValue.vNum 0)) ∧
    (b.skills = JsValue.vArr [] → (buildUpdateFields b).skills = some (JsValue.vArr [])) ∧
    updateUserProfile s (some (toPublic u)) c10Body
      = (Resp.okUser 200 (toPublic { u with experience := 0, skills := ([] : List String) }),
         storeSet s { u with experience := 0, skills := ([] : List String) }) := by
  have hid : (toPublic u).uid = u.uid := rfl
  refine ⟨?_, ?_, ?_, ?_, ?_⟩
  · intro he; simp [buildUpdateFields, he, truthy]
  · intro he; simp [buildUpdateFields, he, truthy]
  · intro he; simp [buildUpdateFields, he]
  · intro he; simp [buildUpdateFields, he, truthy]
  · simp [updateUserProfile, c10Body, buildUpdateFields, castUpdateFields, castOpt,
          castNumber, castElemsJs, truthy, hid, h, applyCasted]

theorem c10_falsy_field_semantics_witness :
    (c10Body.name = JsValue.vStr "" → (buildUpdateFields c10Body).name = none) ∧
    (c10Body.education = JsValue.vStr "" → (buildUpdateFields c10Body).education = none) ∧
    (c10Body.experience = JsValue.vNum 0 →
      (buildUpdateFields c10Body).experience = some (JsValue.vNum 0)) ∧
    (c10Body.skills = JsValue.vArr [] → (buildUpdateFields c10Body).skills = some (JsValue.vArr [])) ∧
    updateUserProfile store1 (some (toPublic annUser)) c10Body
      = (Resp.okUser 200 (toPublic { annUser with experience := 0, skills := ([] : List String) }),
         storeSet store1 { annUser with experience := 0, skills := ([] : List String) }) :=
  c10_falsy_field_semantics c10Body store1 annUser (by decide)

/-- C9 (counterexample): a patch carrying a negative experience and a
skills array with a numeric element passes the validator chain without a
single recorded error, and the update succeeds: experience minus five is
persisted and the element is cast to the string 1 - no 400 validation
failure, and the store is changed. -/
theorem c9_counterexample :
    profileUpdateValidatorErrors body9 = [] ∧
    updateUserProfile store1 (some (toPublic annUser)) body9
      = (Resp.okUser 200 (toPublic ann9), [ann9]) ∧
    ann9.experience = -5 ∧ ann9.experience < 0 ∧ ann9.skills = ["1"] ∧
    [ann9] ≠ store1 := by
  decide

/-- C9 (amended): the validator only checks that experience is numeric
(negative values included) and that skills is an array (element types
unchecked), and updateUserProfile never reads the recorded errors, so
for every stored user such a patch is not rejected: the negative
experience is persisted and the array elements are cast to strings. -/
theorem c9_update_not_rejected (s : List User) (u : User) (n : Int)
    (elems : List JsScalar) (h : findById s u.uid = some u) :
    profileUpdateValidatorErrors
        ⟨JsValue.vUndef, JsValue.vArr elems, JsValue.vNum n, JsValue.vUndef⟩ = [] ∧
    updateUserProfile s (some (toPublic u))
        ⟨JsValue.vUndef, JsValue.vArr elems, JsValue.vNum n, JsValue.vUndef⟩
      = (Resp.okUser 200 (toPublic { u with experience := n, skills := elems.map castScalar }),
         storeSet s { u with experience := n, skills := elems.map castScalar }) := by
  have hid : (toPublic u).uid = u.uid := rfl
  constructor
  · rfl
  · simp [updateUserProfile, buildUpdateFields, castUpdateFields, castOpt,
          castNumber, castElemsJs, truthy, hid, h, applyCasted]

theorem c9_update_not_rejected_witness :
    profileUpdateValidatorErrors body9 = [] ∧
    updateUserProfile store1 (some (toPublic annUser)) body9
      = (Resp.okUser 200 (toPublic ann9), storeSet store1 ann9) :=
  c9_update_not_rejected store1 annUser (-5) [JsScalar.sNum 1] (by decide)

/-- C8 (counterexample): a register call whose name has 52 raw characters
but trims to one character - the claim says any name longer than 50
characters is rejected with a validation failure, yet the validator
checks the trimmed length, records nothing, and registration succeeds
with a 201 and a token. -/
theorem c8_counterexample :
    50 < name51.length ∧
    registerValidatorErrors ctx0.isEmail name51 "ann@x.com" "secret1" = [] ∧
    (registerUser ctx0 0 5 [] name51 "ann@x.com" "secret1").fst
      = Resp.okToken 201 (generateToken ctx0 5 0) := by
  decide

/-- C8 (amended): registration fails with the 400 field-error response
exactly when the raw name is empty, or the trimmed name exceeds 50
characters, or the email check fails, or the password is shorter than 6
characters; and on any such failure the store is untouched - no record
is created. -/
theorem c8_register_validation (ctx : Ctx) (now freshId : Nat) (s : List User)
    (name email password : String) :
    (registerValidatorErrors ctx.isEmail name email password ≠ [] ↔
      (name = "" ∨ 50 < (jsTrim name).length ∨ ctx.isEmail email = false ∨
        password.length < 6)) ∧
    (registerValidatorErrors ctx.isEmail name email password ≠ [] →
      registerUser ctx now freshId s name email password
        = (Resp.failFields 400 (registerValidatorErrors ctx.isEmail name email password), s)) := by
  constructor
  · unfold registerValidatorErrors
    split_ifs <;> simp_all
  · intro h
    unfold registerUser
    rw [if_neg h]

theorem c8_register_validation_witness :
    (registerValidatorErrors ctx0.isEmail "Ann" "nomail" "secret1" ≠ [] ↔
      ("Ann" = "" ∨ 50 < (jsTrim "Ann").length ∨ ctx0.isEmail "nomail" = false ∨
        ("secret1" : String).length < 6)) ∧
    (registerValidatorErrors ctx0.isEmail "Ann" "nomail" "secret1" ≠ [] →
      registerUser ctx0 0 5 [] "Ann" "nomail" "secret1"
        = (Resp.failFields 400 (registerValidatorErrors ctx0.isEmail "Ann" "nomail" "secret1"),
           [])) :=
  c8_register_validation ctx0 0 5 [] "Ann" "nomail" "secret1"

theorem c3_experience_update_frame_witness :
    updateUserProfile store1 (some (toPublic annUser)) (expBody 5)
      = (Resp.okUser 200 (toPublic { annUser with experience := 5 }),
         storeSet store1 { annUser with experience := 5 }) ∧
    ({ annUser with experience := 5 } : User).experience = 5 ∧
    ({ annUser with experience := 5 } : User).name = annUser.name ∧
    ({ annUser with experience := 5 } : User).skills = annUser.skills ∧
    ({ annUser with experience := 5 } : User).education = annUser.education ∧
    ({ annUser with experience := 5 } : User).createdAt = annUser.createdAt ∧
    ({ annUser with experience := 5 } : User).updatedAt = annUser.updatedAt :=
  c3_experience_update_frame store1 annUser (by decide)

end Colbin
